import Mathlib

/-!
# Observability snapshot of a pipeline

Shallow embedding of `pipeline/pipeline_info.go`: the snapshot builder
`Pipeline.boardInfo` and the JSON handler `Pipeline.serveBoardInfoJSON`.

Conventions of the embedding
* Go `int64` values are `Int`, Go `uint64` values are `Nat`; the conversion
  `int64(x)` is `toInt64`, with the wrap-around written out.
* A Go slice is a `List`; the nil slice and the empty slice are both `[]`.
* A Go map is an association list read with `List.lookup` (first binding of a key);
  a map that may be nil is an `Option` of such a list.
* `*atomic.Uint64` is an address into the list of cells `Store.cells`;
  `atomic.NewUint64` allocates a fresh cell at the end of that list.
* Go strings and byte slices are `String`.
-/

namespace pipeline

/-! ## Data model -/

/-- Go `type eventStatus string`. -/
abbrev eventStatus := String

/-- Modelled from the spec: the constant `eventStatusReceived` is declared outside
`pipeline_info.go`; its tag is the name the spec's scenario reports. -/
def eventStatusReceived : eventStatus := "received"

/-- Modelled from the spec: the constant `eventStatusDiscarded`, declared outside
`pipeline_info.go`. -/
def eventStatusDiscarded : eventStatus := "discarded"

/-- Modelled from the spec: the constant `eventStatusPassed`, declared outside
`pipeline_info.go`. -/
def eventStatusPassed : eventStatus := "passed"

/-- Modelled from the spec: the constant `eventStatusNotMatched`, declared outside
`pipeline_info.go`. -/
def eventStatusNotMatched : eventStatus := "not_matched"

/-- Modelled from the spec: the constant `eventStatusCollapse`, declared outside
`pipeline_info.go`. -/
def eventStatusCollapse : eventStatus := "collapse"

/-- Modelled from the spec: the constant `eventStatusHold`, declared outside
`pipeline_info.go`. -/
def eventStatusHold : eventStatus := "hold"

/-- Go conversion `int64(x)` of a `uint64`: the same 64 bits read as two's complement. -/
def toInt64 (v : Nat) : Int :=
  if v % 2 ^ 64 < 2 ^ 63 then ((v % 2 ^ 64 : Nat) : Int)
  else ((v % 2 ^ 64 : Nat) : Int) - 2 ^ 64

structure inObservabilityInfo where
  PluginName : String
deriving DecidableEq, Repr

structure batcherCounter where
  Seconds : Int
  BatchesCommitted : Int
deriving DecidableEq, Repr

/-- The type `BatcherTimeDTO` is declared outside `pipeline_info.go`: it is the
parameter `T`. -/
structure outObservabilityInfo (T : Type) where
  PluginName : String
  BatcherCounters : List batcherCounter
  BatcherMinWait : T
  BatcherMaxWait : T
deriving DecidableEq, Repr

structure actionEventStatus where
  Name : String
  Count : Int
  Color : String
deriving DecidableEq, Repr

/-- The defaults are Go's zero values, as in `actionObservabilityInfo{}`. -/
structure actionObservabilityInfo where
  PluginName : String := ""
  MetricName : String := ""
  Tracked : Bool := false
  Statuses : List actionEventStatus := []
deriving DecidableEq, Repr

/-- The types `BatcherTimeDTO` and `logChangesDTO` are declared outside
`pipeline_info.go`: they are the parameters `T` and `L`. -/
structure pluginsObservabilityInfo (T L : Type) where
  In : inObservabilityInfo
  Out : outObservabilityInfo T
  ActionPlugins : List actionObservabilityInfo
  LogChanges : L
deriving DecidableEq, Repr

/-- The fields of `InputPluginInfo` that `boardInfo` reads (`inputInfo.Type`). -/
structure InputPluginInfo where
  Type' : String
deriving DecidableEq, Repr

/-- The fields of `OutputPluginInfo` that `boardInfo` reads (`outputInfo.Type`). -/
structure OutputPluginInfo where
  Type' : String
deriving DecidableEq, Repr

/-- The fields of `ActionPluginStaticInfo` that `boardInfo` reads
(`info.Type`, `info.MetricName`). -/
structure ActionPluginStaticInfo where
  Type' : String
  MetricName : String
deriving DecidableEq, Repr

/-- The part of the output plugin's payload read as `obsInfo.BatcherInformation`:
`CommittedCounters` is a `map[int64]int64` that may be nil (`none`). -/
structure BatcherInformation (T : Type) where
  CommittedCounters : Option (List (Int × Int))
  MinWait : T
  MaxWait : T
deriving DecidableEq, Repr

/-- What `p.output.GetObservabilityInfo()` returns. -/
structure PluginObservabilityInfo (T : Type) where
  BatcherInformation : BatcherInformation T
deriving DecidableEq, Repr

/-! ## Counter store -/

/-- The field `totalCounter` of a metric's `current` counter set, a
`map[string]*atomic.Uint64`: each key is bound to the address of its cell. -/
structure counter where
  totalCounter : List (String × Nat)
deriving DecidableEq, Repr

/-- The fields of `metrics` that `boardInfo` reads (`m.name`, `m.current`). -/
structure metrics where
  name : String
  current : counter
deriving DecidableEq, Repr

/-- The counter store: the registered metrics `p.metricsHolder.metrics`, in
registration order, and the `atomic.Uint64` cells their maps point to. -/
structure Store where
  cells : List Nat
  metrics : List metrics
deriving DecidableEq, Repr

/-- Go `c.Load()` on the cell at address `c`. -/
def Store.load (s : Store) (c : Nat) : Nat := s.cells.getD c 0

/-- Go `atomic.NewUint64(v)`: a fresh cell holding `v`; its address is returned. -/
def Store.newUint64 (s : Store) (v : Nat) : Nat × Store :=
  (s.cells.length, { s with cells := s.cells ++ [v] })

/-! ## Delta tracker -/

/-- Modelled from the spec: the delta tracker, declared outside `pipeline_info.go`;
it holds the last observed absolute value and owns no other state. -/
structure DeltaWrapper where
  lastAbsolute : Int
deriving DecidableEq, Repr

/-- Modelled from the spec: `newDeltaWrapper`, declared outside `pipeline_info.go`;
the implicit prior baseline is zero. -/
def newDeltaWrapper : DeltaWrapper := { lastAbsolute := 0 }

/-- Modelled from the spec: `next(currentAbsolute) -> delta`, declared outside
`pipeline_info.go`: `delta = currentAbsolute - lastAbsolute`, then
`lastAbsolute := currentAbsolute`. -/
def DeltaWrapper.next (d : DeltaWrapper) (currentAbsolute : Int) : Int × DeltaWrapper :=
  (currentAbsolute - d.lastAbsolute, { lastAbsolute := currentAbsolute })

/-- The deltas of `n` consecutive calls `next(v)` on the tracker `d`, oldest first,
and the tracker after them. -/
def nextRepeated (v : Int) : Nat → DeltaWrapper → List Int × DeltaWrapper
  | 0, d => ([], d)
  | n + 1, d =>
    let r := d.next v
    let rest := nextRepeated v n r.2
    (r.1 :: rest.1, rest.2)

/-! ## The pipeline -/

/-- The parts of `Pipeline` that `boardInfo` uses. The methods `incMetrics` and
`logChanges` and the type `deltas` they exchange are declared outside
`pipeline_info.go`: they are parameters (`D` is the type of the deltas).
`batcherTimeKeys` is the package-level bucket list, declared outside the file too. -/
structure Pipeline (T D L : Type) where
  store : Store
  output : PluginObservabilityInfo T
  incMetrics : DeltaWrapper → DeltaWrapper → DeltaWrapper → DeltaWrapper → DeltaWrapper → D
  logChanges : D → L
  batcherTimeKeys : List Int

/-! ## `Pipeline.boardInfo` -/

/-- The batcher counters built at lines 73-87: empty when the committed counters
are nil, else one pair per key of `batcherTimeKeys`, appended in order. -/
def batcherCountersOf (batcherTimeKeys : List Int)
    (committedCounters : Option (List (Int × Int))) : List batcherCounter :=
  match committedCounters with
  | none => []
  | some m =>
    batcherTimeKeys.foldl
      (fun batcherCounters timePoint =>
        let cnt : Int :=
          match m.lookup timePoint with
          | some c => c
          | none => 0
        let pair : batcherCounter := { Seconds := timePoint, BatchesCommitted := cnt }
        batcherCounters ++ [pair])
      []

/-- The color of a status, lines 126-138: the default `"#0d8bf0"` and the
`switch status`, its cases in the order of the source. -/
def statusColor (status : eventStatus) : String :=
  if status = eventStatusNotMatched then "#8bc34a"
  else if status = eventStatusPassed then "green"
  else if status = eventStatusDiscarded then "red"
  else if status = eventStatusCollapse then "#009688"
  else if status = eventStatusHold then "#f050f0"
  else "#0d8bf0"

/-- The slice of statuses ranged over at lines 114-121. -/
def trackedStatuses : List eventStatus :=
  [eventStatusReceived, eventStatusDiscarded, eventStatusPassed,
   eventStatusNotMatched, eventStatusCollapse, eventStatusHold]

/-- Body of the loop over the statuses, lines 122-140, for the metric `actionMetric`:
the cell is looked up, a fresh zero cell is allocated when the key has none, and
one entry is appended to `action.Statuses`. -/
def statusStep (actionMetric : metrics) (st : Store × actionObservabilityInfo)
    (status : eventStatus) : Store × actionObservabilityInfo :=
  let cs : Nat × Store :=
    match actionMetric.current.totalCounter.lookup status with
    | some c => (c, st.1)
    | none => st.1.newUint64 0
  let color := statusColor status
  let eventStatus : actionEventStatus :=
    { Name := status, Count := toInt64 (cs.2.load cs.1), Color := color }
  (cs.2, { st.2 with Statuses := st.2.Statuses ++ [eventStatus] })

/-- Body of the loop over the registered metrics, lines 110-143. -/
def metricStep (info : ActionPluginStaticInfo) (st : Store × actionObservabilityInfo)
    (m : metrics) : Store × actionObservabilityInfo :=
  if m.name = info.MetricName then trackedStatuses.foldl (statusStep m) st else st

/-- Body of the loop over the action plugins, lines 98-145: the state is the
counter store and `result.ActionPlugins`. -/
def actionStep (st : Store × List actionObservabilityInfo)
    (info : ActionPluginStaticInfo) : Store × List actionObservabilityInfo :=
  let action : actionObservabilityInfo := { PluginName := info.Type' }
  if info.MetricName = "" then (st.1, st.2 ++ [action])
  else
    let action : actionObservabilityInfo :=
      { action with Tracked := true, MetricName := info.MetricName }
    let r := st.1.metrics.foldl (metricStep info) (st.1, action)
    (r.1, st.2 ++ [r.2])

/-- The method `Pipeline.boardInfo`, lines 52-148: the snapshot and the pipeline
after the call. -/
def Pipeline.boardInfo {T D L : Type} (p : Pipeline T D L) (inputInfo : InputPluginInfo)
    (actionInfos : List ActionPluginStaticInfo) (outputInfo : OutputPluginInfo) :
    pluginsObservabilityInfo T L × Pipeline T D L :=
  let inputEvents := newDeltaWrapper
  let inputSize := newDeltaWrapper
  let outputEvents := newDeltaWrapper
  let outputSize := newDeltaWrapper
  let readOps := newDeltaWrapper
  let localDeltas := p.incMetrics inputEvents inputSize outputEvents outputSize readOps
  let logChanges := p.logChanges localDeltas
  let in' : inObservabilityInfo := { PluginName := inputInfo.Type' }
  let obsInfo := p.output
  let batcherCounters :=
    batcherCountersOf p.batcherTimeKeys obsInfo.BatcherInformation.CommittedCounters
  let out : outObservabilityInfo T :=
    { PluginName := outputInfo.Type'
      BatcherCounters := batcherCounters
      BatcherMinWait := obsInfo.BatcherInformation.MinWait
      BatcherMaxWait := obsInfo.BatcherInformation.MaxWait }
  let r := actionInfos.foldl actionStep (p.store, [])
  ({ In := in', Out := out, ActionPlugins := r.2, LogChanges := logChanges },
   { p with store := r.1 })

/-! ## `Pipeline.serveBoardInfoJSON` -/

/-- What a handler does to its `http.ResponseWriter`: the header fields it adds,
the status code it sets with `WriteHeader` (`none` while it has set none) and the
body, the concatenation of all writes. -/
structure ResponseWriter where
  header : List (String × String)
  statusCode : Option Nat
  body : String
deriving DecidableEq, Repr

/-- Go `w.Header().Add(key, value)`. -/
def ResponseWriter.headerAdd (w : ResponseWriter) (key value : String) : ResponseWriter :=
  { w with header := w.header ++ [(key, value)] }

/-- Go `w.Write(b)`. -/
def ResponseWriter.Write (w : ResponseWriter) (b : String) : ResponseWriter :=
  { w with body := w.body ++ b }

/-- The handler returned by `Pipeline.serveBoardInfoJSON`, lines 150-163. The
encoder `json.Marshal` is a parameter: it returns the bytes and the error, `none`
for a nil error, `some msg` for an error whose `Error()` is `msg`. -/
def Pipeline.serveBoardInfoJSON {T D L : Type}
    (jsonMarshal : pluginsObservabilityInfo T L → String × Option String)
    (p : Pipeline T D L) (inputInfo : InputPluginInfo)
    (actionInfos : List ActionPluginStaticInfo) (outputInfo : OutputPluginInfo)
    (w : ResponseWriter) : ResponseWriter × Pipeline T D L :=
  let w := w.headerAdd "Content-Type" "application/json"
  let r := p.boardInfo inputInfo actionInfos outputInfo
  let result := r.1
  let enc := jsonMarshal result
  let bytes := enc.1
  let w :=
    match enc.2 with
    | some err => w.Write ("can't get json info: " ++ err)
    | none => w
  let w := w.Write bytes
  (w, r.2)

/-! ## `Pipeline.serveBoardInfo`: the template helpers -/

/-- Go arithmetic on `int`, taken as 64 bits wide: the result wraps around into
the range from -2^63 to 2^63 - 1. -/
def wrapInt64 (x : Int) : Int := (x + 2 ^ 63) % 2 ^ 64 - 2 ^ 63

/-- The `template.FuncMap` built at lines 177-182: the one helper, under the name
"title", is `func(a int) int { return a + 1 }`. -/
def funcMap : List (String × (Int → Int)) :=
  [("title", fun a => wrapInt64 (a + 1))]

/-! ## Reading a snapshot against the store it was built from -/

/-- The store `s` after `k` fresh cells holding 0 were allocated. -/
def Store.grow (s : Store) (k : Nat) : Store :=
  { s with cells := s.cells ++ List.replicate k 0 }

/-- The current value of the counter of `status` in the metric `m`, 0 when the
map of `m` has no entry for `status`. -/
def counterValue (s : Store) (m : metrics) (status : eventStatus) : Nat :=
  match m.current.totalCounter.lookup status with
  | some c => s.load c
  | none => 0

/-- The entry reported for `status` of the metric `m`. -/
def statusEntry (s : Store) (m : metrics) (status : eventStatus) : actionEventStatus :=
  { Name := status, Count := toInt64 (counterValue s m status), Color := statusColor status }

/-- The block of six entries reported for the metric `m`. -/
def metricBlock (s : Store) (m : metrics) : List actionEventStatus :=
  trackedStatuses.map (statusEntry s m)

/-- The registered metrics whose name is `name`, in registration order. -/
def metricsNamed (s : Store) (name : String) : List metrics :=
  s.metrics.filter (fun m => decide (m.name = name))

/-- The report of one action plugin, read off the store. -/
def actionReport (s : Store) (info : ActionPluginStaticInfo) : actionObservabilityInfo :=
  if info.MetricName = "" then { PluginName := info.Type' }
  else
    { PluginName := info.Type'
      MetricName := info.MetricName
      Tracked := true
      Statuses := (metricsNamed s info.MetricName).flatMap (metricBlock s) }

/-! ## Example values -/

/-- A pipeline over the store `s` whose output plugin reports the committed
counters `committed`, with the bucket list `keys`; the collaborators outside the
file return the unit value. -/
def examplePipeline (s : Store) (committed : Option (List (Int × Int)))
    (keys : List Int) : Pipeline Nat Unit Unit :=
  { store := s
    output := { BatcherInformation := { CommittedCounters := committed, MinWait := 3, MaxWait := 7 } }
    incMetrics := fun _ _ _ _ _ => ()
    logChanges := fun _ => ()
    batcherTimeKeys := keys }

/-- The store of the spec's scenario: the metric "geoip" with received = 10,
discarded = 2, passed = 8 and no other entry. -/
def geoipStore : Store :=
  { cells := [10, 2, 8]
    metrics :=
      [{ name := "geoip"
         current := { totalCounter := [("received", 0), ("discarded", 1), ("passed", 2)] } }] }

/-- A store in which the name "geoip" is registered twice. -/
def twiceStore : Store :=
  { cells := [4, 9]
    metrics :=
      [{ name := "geoip", current := { totalCounter := [("received", 0)] } },
       { name := "geoip", current := { totalCounter := [("received", 1)] } }] }

/-- A store holding a metric whose name is the empty string, and one of another name. -/
def unnamedStore : Store :=
  { cells := [5, 6]
    metrics :=
      [{ name := "", current := { totalCounter := [("received", 0)] } },
       { name := "other", current := { totalCounter := [("passed", 1)] } }] }

/-- A store whose metric "geoip" has a received counter at the top of the unsigned
range, 2^64 - 1, and a passed counter at 2^63. -/
def wrappedStore : Store :=
  { cells := [18446744073709551615, 9223372036854775808, 7]
    metrics :=
      [{ name := "geoip"
         current := { totalCounter := [("received", 0), ("passed", 1), ("hold", 2)] } }] }

/-! ## Lemmas on the loops of `boardInfo` -/

theorem Store.grow_zero (s : Store) : s.grow 0 = s := by
  cases s; simp [Store.grow]

theorem Store.grow_metrics (s : Store) (k : Nat) : (s.grow k).metrics = s.metrics := rfl

theorem Store.load_grow (s : Store) (k c : Nat) : (s.grow k).load c = s.load c := by
  unfold Store.load Store.grow
  simp only [List.getD_eq_getElem?_getD, List.getElem?_append]
  by_cases h : c < s.cells.length
  · simp [h]
  · have hnone : s.cells[c]? = none := List.getElem?_eq_none (Nat.le_of_not_lt h)
    simp only [h, if_false, hnone, Option.getD_none]
    by_cases h2 : c - s.cells.length < k
    · simp [List.getElem?_replicate, h2]
    · simp [List.getElem?_replicate, h2]

theorem Store.load_fresh (s : Store) (k : Nat) : s.load (s.grow k).cells.length = 0 := by
  unfold Store.load Store.grow
  apply List.getD_eq_default
  simp

theorem Store.newUint64_grow (s : Store) (k : Nat) :
    (s.grow k).newUint64 0 = ((s.grow k).cells.length, s.grow (k + 1)) := by
  simp [Store.newUint64, Store.grow, List.replicate_succ']

theorem statusStep_grow (s : Store) (m : metrics) (k : Nat) (a : actionObservabilityInfo)
    (status : eventStatus) :
    ∃ j, statusStep m (s.grow k, a) status =
      (s.grow j, { a with Statuses := a.Statuses ++ [statusEntry s m status] }) := by
  cases hl : m.current.totalCounter.lookup status with
  | some c =>
    refine ⟨k, ?_⟩
    simp [statusStep, statusEntry, counterValue, hl, Store.load_grow]
  | none =>
    refine ⟨k + 1, ?_⟩
    simp [statusStep, statusEntry, counterValue, hl, Store.newUint64_grow, Store.load_grow,
      Store.load_fresh]

theorem statusLoop_grow (s : Store) (m : metrics) (l : List eventStatus) :
    ∀ (k : Nat) (a : actionObservabilityInfo),
      ∃ j, l.foldl (statusStep m) (s.grow k, a) =
        (s.grow j, { a with Statuses := a.Statuses ++ l.map (statusEntry s m) }) := by
  induction l with
  | nil => intro k a; exact ⟨k, by simp⟩
  | cons x xs ih =>
    intro k a
    obtain ⟨j, hj⟩ := statusStep_grow s m k a x
    obtain ⟨j2, hj2⟩ := ih j { a with Statuses := a.Statuses ++ [statusEntry s m x] }
    exact ⟨j2, by simp [List.foldl_cons, hj, hj2]⟩

theorem metricLoop_grow (s : Store) (info : ActionPluginStaticInfo) (l : List metrics) :
    ∀ (k : Nat) (a : actionObservabilityInfo),
      ∃ j, l.foldl (metricStep info) (s.grow k, a) =
        (s.grow j,
         { a with
           Statuses := a.Statuses ++
             (l.filter (fun m => decide (m.name = info.MetricName))).flatMap (metricBlock s) }) := by
  induction l with
  | nil => intro k a; exact ⟨k, by simp⟩
  | cons x xs ih =>
    intro k a
    by_cases hx : x.name = info.MetricName
    · obtain ⟨j, hj⟩ := statusLoop_grow s x trackedStatuses k a
      obtain ⟨j2, hj2⟩ := ih j { a with Statuses := a.Statuses ++ metricBlock s x }
      refine ⟨j2, ?_⟩
      simp only [List.foldl_cons, metricStep, hx, if_true, hj]
      rw [show trackedStatuses.map (statusEntry s x) = metricBlock s x from rfl, hj2]
      simp [List.filter_cons, hx, List.flatMap_cons, List.append_assoc]
    · obtain ⟨j, hj⟩ := ih k a
      refine ⟨j, ?_⟩
      simp [List.foldl_cons, metricStep, hx, hj, List.filter_cons]

theorem actionStep_grow (s : Store) (k : Nat) (acc : List actionObservabilityInfo)
    (info : ActionPluginStaticInfo) :
    ∃ j, actionStep (s.grow k, acc) info = (s.grow j, acc ++ [actionReport s info]) := by
  by_cases h : info.MetricName = ""
  · exact ⟨k, by simp [actionStep, actionReport, h]⟩
  · obtain ⟨j, hj⟩ := metricLoop_grow s info s.metrics k
      { PluginName := info.Type', MetricName := info.MetricName, Tracked := true }
    refine ⟨j, ?_⟩
    simp [actionStep, actionReport, h, Store.grow_metrics, hj, metricsNamed]

theorem actionLoop_grow (s : Store) (l : List ActionPluginStaticInfo) :
    ∀ (k : Nat) (acc : List actionObservabilityInfo),
      ∃ j, l.foldl actionStep (s.grow k, acc) = (s.grow j, acc ++ l.map (actionReport s)) := by
  induction l with
  | nil => intro k acc; exact ⟨k, by simp⟩
  | cons x xs ih =>
    intro k acc
    obtain ⟨j, hj⟩ := actionStep_grow s k acc x
    obtain ⟨j2, hj2⟩ := ih j (acc ++ [actionReport s x])
    exact ⟨j2, by simp [List.foldl_cons, hj, hj2]⟩

/-- The action reports of a snapshot, read off the store the call started from. -/
theorem boardInfo_actionPlugins {T D L : Type} (p : Pipeline T D L)
    (inputInfo : InputPluginInfo) (actionInfos : List ActionPluginStaticInfo)
    (outputInfo : OutputPluginInfo) :
    (p.boardInfo inputInfo actionInfos outputInfo).1.ActionPlugins =
      actionInfos.map (actionReport p.store) := by
  obtain ⟨j, hj⟩ := actionLoop_grow p.store actionInfos 0 []
  rw [Store.grow_zero] at hj
  simp [Pipeline.boardInfo, hj]

/-- The store after a snapshot is the store before it, with fresh zero cells. -/
theorem boardInfo_store {T D L : Type} (p : Pipeline T D L)
    (inputInfo : InputPluginInfo) (actionInfos : List ActionPluginStaticInfo)
    (outputInfo : OutputPluginInfo) :
    ∃ j, (p.boardInfo inputInfo actionInfos outputInfo).2.store = p.store.grow j := by
  obtain ⟨j, hj⟩ := actionLoop_grow p.store actionInfos 0 []
  rw [Store.grow_zero] at hj
  exact ⟨j, by simp [Pipeline.boardInfo, hj]⟩

/-- The batcher counters of a present mapping: one pair per bucket, in order. -/
theorem batcherCountersOf_some (keys : List Int) (m : List (Int × Int)) :
    batcherCountersOf keys (some m) =
      keys.map (fun t => { Seconds := t, BatchesCommitted := (m.lookup t).getD 0 }) := by
  have key : ∀ (l : List Int) (acc : List batcherCounter),
      l.foldl
        (fun batcherCounters timePoint =>
          let cnt : Int :=
            match m.lookup timePoint with
            | some c => c
            | none => 0
          let pair : batcherCounter := { Seconds := timePoint, BatchesCommitted := cnt }
          batcherCounters ++ [pair]) acc =
      acc ++ l.map (fun t => { Seconds := t, BatchesCommitted := (m.lookup t).getD 0 }) := by
    intro l
    induction l with
    | nil => intro acc; simp
    | cons x xs ih =>
      intro acc
      rw [List.foldl_cons, ih]
      cases hx : m.lookup x <;> simp [hx]
  simpa [batcherCountersOf] using key keys []

theorem toInt64_of_lt (v : Nat) (h : v < 2 ^ 63) : toInt64 v = (v : Int) := by
  have h64 : v % 2 ^ 64 = v := Nat.mod_eq_of_lt (by omega)
  unfold toInt64
  rw [h64, if_pos h]

/-- The report at position `i` of a snapshot is the report of the `i`-th plugin. -/
theorem boardInfo_report_at {T D L : Type} (p : Pipeline T D L)
    (inputInfo : InputPluginInfo) (actionInfos : List ActionPluginStaticInfo)
    (outputInfo : OutputPluginInfo) (i : Nat) (info : ActionPluginStaticInfo)
    (hi : actionInfos[i]? = some info) :
    (p.boardInfo inputInfo actionInfos outputInfo).1.ActionPlugins[i]? =
      some (actionReport p.store info) := by
  rw [boardInfo_actionPlugins, List.getElem?_map, hi]
  rfl

/-! ## The claims -/

/-- C1 (counterexample): the plugin declares the non-empty metric name "geoip";
over a store in which no metric has that name its report is tracked and has no
status entry, and over a store in which the name is registered twice it has
twelve entries: in neither case exactly six. -/
theorem boardInfo_six_statuses_counterexample :
    (((examplePipeline { cells := [], metrics := [] } none []).boardInfo
        { Type' := "in" } [{ Type' := "geoip", MetricName := "geoip" }]
        { Type' := "out" }).1.ActionPlugins.map
      (fun a => (a.Tracked, a.Statuses.length)) = [(true, 0)]) ∧
    (((examplePipeline twiceStore none []).boardInfo
        { Type' := "in" } [{ Type' := "geoip", MetricName := "geoip" }]
        { Type' := "out" }).1.ActionPlugins.map
      (fun a => (a.Tracked, a.Statuses.length)) = [(true, 12)]) := by
  constructor <;> decide

/-- C1 (amended): for every counter store and every action plugin whose declared
metric name is non-empty and registered exactly once, the report `boardInfo`
builds for that plugin has exactly six status entries, named received, discarded,
passed, not_matched, collapse, hold in this order, each with its fixed color,
whatever the counter map of the metric holds. -/
theorem boardInfo_six_statuses {T D L : Type} (p : Pipeline T D L)
    (inputInfo : InputPluginInfo) (actionInfos : List ActionPluginStaticInfo)
    (outputInfo : OutputPluginInfo) (i : Nat) (info : ActionPluginStaticInfo)
    (hi : actionInfos[i]? = some info) (hname : info.MetricName ≠ "")
    (honce : (p.store.metrics.filter (fun m => decide (m.name = info.MetricName))).length = 1) :
    ((p.boardInfo inputInfo actionInfos outputInfo).1.ActionPlugins[i]?).map
        (fun a => a.Statuses.map (fun e => (e.Name, e.Color))) =
      some [("received", "#0d8bf0"), ("discarded", "red"), ("passed", "green"),
            ("not_matched", "#8bc34a"), ("collapse", "#009688"), ("hold", "#f050f0")] := by
  rw [boardInfo_report_at p inputInfo actionInfos outputInfo i info hi]
  obtain ⟨m, hm⟩ := List.length_eq_one.mp honce
  simp only [actionReport, hname, if_false, metricsNamed, hm, Option.map_some']
  simp only [List.flatMap_cons, List.flatMap_nil, List.append_nil, metricBlock, List.map_map]
  rfl

/-- C1 (witness): the spec's scenario, where "geoip" is registered once and three
of its statuses were never incremented. -/
theorem boardInfo_six_statuses_witness :
    ([({ Type' := "geoip", MetricName := "geoip" } : ActionPluginStaticInfo)][0]? =
        some { Type' := "geoip", MetricName := "geoip" }) ∧
    ("geoip" ≠ "") ∧
    ((geoipStore.metrics.filter (fun m => decide (m.name = "geoip"))).length = 1) ∧
    ((((examplePipeline geoipStore none []).boardInfo { Type' := "in" }
          [{ Type' := "geoip", MetricName := "geoip" }] { Type' := "out" }).1.ActionPlugins[0]?).map
        (fun a => a.Statuses.map (fun e => (e.Name, e.Color))) =
      some [("received", "#0d8bf0"), ("discarded", "red"), ("passed", "green"),
            ("not_matched", "#8bc34a"), ("collapse", "#009688"), ("hold", "#f050f0")]) :=
  ⟨rfl, by decide, by decide,
    boardInfo_six_statuses (examplePipeline geoipStore none []) { Type' := "in" }
      [{ Type' := "geoip", MetricName := "geoip" }] { Type' := "out" } 0
      { Type' := "geoip", MetricName := "geoip" } rfl (by decide) (by decide)⟩

/-- C2 (counterexample): with the bucket list 1, 5, 10 and a nil committed-counter
mapping, the batcher counters of the snapshot are the empty list, not the dense
list of three zero entries. -/
theorem boardInfo_nil_counters_counterexample :
    ((examplePipeline geoipStore none [1, 5, 10]).boardInfo { Type' := "in" } []
        { Type' := "out" }).1.Out.BatcherCounters = [] ∧
    ((examplePipeline geoipStore none [1, 5, 10]).boardInfo { Type' := "in" } []
        { Type' := "out" }).1.Out.BatcherCounters ≠
      [{ Seconds := 1, BatchesCommitted := 0 }, { Seconds := 5, BatchesCommitted := 0 },
       { Seconds := 10, BatchesCommitted := 0 }] := by
  constructor <;> decide

/-- C2 (amended): when the committed-counter mapping of the output plugin's payload
is nil, the batcher counters built by `boardInfo` are the empty list, whatever the
bucket list is. -/
theorem boardInfo_nil_counters {T D L : Type} (p : Pipeline T D L)
    (inputInfo : InputPluginInfo) (actionInfos : List ActionPluginStaticInfo)
    (outputInfo : OutputPluginInfo)
    (hnil : p.output.BatcherInformation.CommittedCounters = none) :
    (p.boardInfo inputInfo actionInfos outputInfo).1.Out.BatcherCounters = [] := by
  simp [Pipeline.boardInfo, hnil, batcherCountersOf]

/-- C2 (witness): the bucket list 0, 1, 2, 5 with a nil mapping. -/
theorem boardInfo_nil_counters_witness :
    ((examplePipeline geoipStore none [0, 1, 2, 5]).output.BatcherInformation.CommittedCounters
        = none) ∧
    (((examplePipeline geoipStore none [0, 1, 2, 5]).boardInfo { Type' := "in" }
        [{ Type' := "geoip", MetricName := "geoip" }] { Type' := "out" }).1.Out.BatcherCounters
        = []) :=
  ⟨rfl, boardInfo_nil_counters (examplePipeline geoipStore none [0, 1, 2, 5]) { Type' := "in" }
    [{ Type' := "geoip", MetricName := "geoip" }] { Type' := "out" } rfl⟩

/-- C3: when the committed-counter mapping is present (`m`, possibly empty), the
batcher counters built by `boardInfo` have the length of `batcherTimeKeys`, and the
`i`-th entry pairs the `i`-th threshold with the count bound to it in `m`, or with 0
when `m` has no such key. -/
theorem boardInfo_dense_counters {T D L : Type} (p : Pipeline T D L)
    (inputInfo : InputPluginInfo) (actionInfos : List ActionPluginStaticInfo)
    (outputInfo : OutputPluginInfo) (m : List (Int × Int))
    (hm : p.output.BatcherInformation.CommittedCounters = some m) :
    (p.boardInfo inputInfo actionInfos outputInfo).1.Out.BatcherCounters.length =
        p.batcherTimeKeys.length ∧
    ∀ (i : Nat) (hi : i < p.batcherTimeKeys.length),
      (p.boardInfo inputInfo actionInfos outputInfo).1.Out.BatcherCounters[i]? =
        some { Seconds := p.batcherTimeKeys[i]
               BatchesCommitted :=
                 match m.lookup p.batcherTimeKeys[i] with
                 | some cnt => cnt
                 | none => 0 } := by
  have h : (p.boardInfo inputInfo actionInfos outputInfo).1.Out.BatcherCounters =
      p.batcherTimeKeys.map
        (fun t => { Seconds := t, BatchesCommitted := (m.lookup t).getD 0 }) := by
    simp [Pipeline.boardInfo, hm, batcherCountersOf_some]
  rw [h]
  refine ⟨by simp, ?_⟩
  intro i hi
  rw [List.getElem?_map, List.getElem?_eq_getElem hi]
  cases hl : m.lookup p.batcherTimeKeys[i] <;> simp [hl]

/-- C3 (witness): the bucket list 1, 5, 10 with the mapping that binds 5 to 3 gives
the pairs (1, 0), (5, 3), (10, 0). -/
theorem boardInfo_dense_counters_witness :
    ((examplePipeline geoipStore (some [(5, 3)]) [1, 5, 10]).output.BatcherInformation.CommittedCounters
        = some [(5, 3)]) ∧
    (((examplePipeline geoipStore (some [(5, 3)]) [1, 5, 10]).boardInfo { Type' := "in" } []
        { Type' := "out" }).1.Out.BatcherCounters.length = 3) ∧
    (((examplePipeline geoipStore (some [(5, 3)]) [1, 5, 10]).boardInfo { Type' := "in" } []
        { Type' := "out" }).1.Out.BatcherCounters[1]? =
      some { Seconds := 5, BatchesCommitted := 3 }) ∧
    (((examplePipeline geoipStore (some [(5, 3)]) [1, 5, 10]).boardInfo { Type' := "in" } []
        { Type' := "out" }).1.Out.BatcherCounters =
      [{ Seconds := 1, BatchesCommitted := 0 }, { Seconds := 5, BatchesCommitted := 3 },
       { Seconds := 10, BatchesCommitted := 0 }]) :=
  ⟨rfl,
   (boardInfo_dense_counters (examplePipeline geoipStore (some [(5, 3)]) [1, 5, 10])
      { Type' := "in" } [] { Type' := "out" } [(5, 3)] rfl).1,
   (boardInfo_dense_counters (examplePipeline geoipStore (some [(5, 3)]) [1, 5, 10])
      { Type' := "in" } [] { Type' := "out" } [(5, 3)] rfl).2 1 (by decide),
   by decide⟩

/-- C4: for an action plugin whose declared metric name is non-empty and registered
exactly once (the metric `m`), whose counters for the six statuses hold values
below 2^63, the report lists the six statuses in order, the count of each being
the current value of the counter of `m` for it, and 0 when the counter map of `m`
has no entry for it. -/
theorem boardInfo_status_counts {T D L : Type} (p : Pipeline T D L)
    (inputInfo : InputPluginInfo) (actionInfos : List ActionPluginStaticInfo)
    (outputInfo : OutputPluginInfo) (i : Nat) (info : ActionPluginStaticInfo) (m : metrics)
    (hi : actionInfos[i]? = some info) (hname : info.MetricName ≠ "")
    (honce : p.store.metrics.filter (fun x => decide (x.name = info.MetricName)) = [m])
    (hrange : ∀ s ∈ ["received", "discarded", "passed", "not_matched", "collapse", "hold"],
      ∀ c, m.current.totalCounter.lookup s = some c → p.store.load c < 2 ^ 63) :
    ((p.boardInfo inputInfo actionInfos outputInfo).1.ActionPlugins[i]?).map
        (fun a => a.Statuses.map (fun e => (e.Name, e.Count))) =
      some (["received", "discarded", "passed", "not_matched", "collapse", "hold"].map
        (fun s => (s,
          match m.current.totalCounter.lookup s with
          | some c => (p.store.load c : Int)
          | none => 0))) := by
  rw [boardInfo_report_at p inputInfo actionInfos outputInfo i info hi]
  simp only [actionReport, hname, if_false, metricsNamed, honce, Option.map_some']
  simp only [List.flatMap_cons, List.flatMap_nil, List.append_nil, metricBlock, List.map_map]
  have hcount : ∀ s ∈ ["received", "discarded", "passed", "not_matched", "collapse", "hold"],
      toInt64 (counterValue p.store m s) =
        (match m.current.totalCounter.lookup s with
          | some c => (p.store.load c : Int)
          | none => 0) := by
    intro s hs
    unfold counterValue
    cases hl : m.current.totalCounter.lookup s with
    | some c => exact toInt64_of_lt _ (hrange s hs c hl)
    | none => rfl
  congr 1
  apply List.map_congr_left
  intro s hs
  simp only [Function.comp, statusEntry]
  rw [hcount s hs]

/-- C4 (witness): the metric "geoip" with received = 10, discarded = 2, passed = 8
and no other entry yields the six entries of the spec's scenario. -/
theorem boardInfo_status_counts_witness :
    ([({ Type' := "geoip", MetricName := "geoip" } : ActionPluginStaticInfo)][0]? =
        some { Type' := "geoip", MetricName := "geoip" }) ∧
    ("geoip" ≠ "") ∧
    (geoipStore.metrics.filter (fun x => decide (x.name = "geoip")) =
      [{ name := "geoip"
         current := { totalCounter := [("received", 0), ("discarded", 1), ("passed", 2)] } }]) ∧
    ((((examplePipeline geoipStore none []).boardInfo { Type' := "in" }
          [{ Type' := "geoip", MetricName := "geoip" }] { Type' := "out" }).1.ActionPlugins[0]?).map
        (fun a => a.Statuses.map (fun e => (e.Name, e.Count))) =
      some [("received", 10), ("discarded", 2), ("passed", 8), ("not_matched", 0),
            ("collapse", 0), ("hold", 0)]) ∧
    ((((examplePipeline geoipStore none []).boardInfo { Type' := "in" }
          [{ Type' := "geoip", MetricName := "geoip" }] { Type' := "out" }).1.ActionPlugins[0]?).map
        (fun a => a.Statuses) =
      some [{ Name := "received", Count := 10, Color := "#0d8bf0" },
            { Name := "discarded", Count := 2, Color := "red" },
            { Name := "passed", Count := 8, Color := "green" },
            { Name := "not_matched", Count := 0, Color := "#8bc34a" },
            { Name := "collapse", Count := 0, Color := "#009688" },
            { Name := "hold", Count := 0, Color := "#f050f0" }]) :=
  ⟨rfl, by decide, by decide,
    boardInfo_status_counts (examplePipeline geoipStore none []) { Type' := "in" }
      [{ Type' := "geoip", MetricName := "geoip" }] { Type' := "out" } 0
      { Type' := "geoip", MetricName := "geoip" }
      { name := "geoip"
        current := { totalCounter := [("received", 0), ("discarded", 1), ("passed", 2)] } }
      rfl (by decide) (by decide) (by decide),
    by decide⟩

/-- C5: for every counter store and every action plugin whose declared metric name
is empty, the report `boardInfo` builds for that plugin carries the plugin's type,
`Tracked = false`, an empty metric name and an empty status list. -/
theorem boardInfo_untracked {T D L : Type} (p : Pipeline T D L)
    (inputInfo : InputPluginInfo) (actionInfos : List ActionPluginStaticInfo)
    (outputInfo : OutputPluginInfo) (i : Nat) (info : ActionPluginStaticInfo)
    (hi : actionInfos[i]? = some info) (hname : info.MetricName = "") :
    (p.boardInfo inputInfo actionInfos outputInfo).1.ActionPlugins[i]? =
      some { PluginName := info.Type', MetricName := "", Tracked := false, Statuses := [] } := by
  rw [boardInfo_report_at p inputInfo actionInfos outputInfo i info hi]
  simp [actionReport, hname]

/-- C5 (witness): the store holds a metric whose name is the empty string and a
metric of another name; the second plugin declares no metric name. -/
theorem boardInfo_untracked_witness :
    ([({ Type' := "rename", MetricName := "other" } : ActionPluginStaticInfo),
      { Type' := "debug", MetricName := "" }][1]? =
        some { Type' := "debug", MetricName := "" }) ∧
    (({ Type' := "debug", MetricName := "" } : ActionPluginStaticInfo).MetricName = "") ∧
    (((examplePipeline unnamedStore none []).boardInfo { Type' := "in" }
        [{ Type' := "rename", MetricName := "other" }, { Type' := "debug", MetricName := "" }]
        { Type' := "out" }).1.ActionPlugins[1]? =
      some { PluginName := "debug", MetricName := "", Tracked := false, Statuses := [] }) :=
  ⟨rfl, rfl,
    boardInfo_untracked (examplePipeline unnamedStore none []) { Type' := "in" }
      [{ Type' := "rename", MetricName := "other" }, { Type' := "debug", MetricName := "" }]
      { Type' := "out" } 1 { Type' := "debug", MetricName := "" } rfl rfl⟩

/-- C6: the action reports of the snapshot are as many as the configured action
plugins and describe them in pipeline order: the `i`-th report carries the type
and the declared metric name of the `i`-th plugin, and is tracked exactly when
that name is non-empty. -/
theorem boardInfo_actions_in_order {T D L : Type} (p : Pipeline T D L)
    (inputInfo : InputPluginInfo) (actionInfos : List ActionPluginStaticInfo)
    (outputInfo : OutputPluginInfo) :
    (p.boardInfo inputInfo actionInfos outputInfo).1.ActionPlugins.length =
        actionInfos.length ∧
    ∀ i : Nat,
      ((p.boardInfo inputInfo actionInfos outputInfo).1.ActionPlugins[i]?).map
          (fun a => (a.PluginName, a.MetricName, a.Tracked)) =
        (actionInfos[i]?).map
          (fun info => (info.Type', info.MetricName, decide (info.MetricName ≠ ""))) := by
  rw [boardInfo_actionPlugins]
  refine ⟨by simp, ?_⟩
  intro i
  rw [List.getElem?_map]
  cases actionInfos[i]? with
  | none => rfl
  | some info =>
    by_cases h : info.MetricName = "" <;> simp [actionReport, h]

/-- C7: whether or not the committed-counter mapping is present, the snapshot's
`Out` carries the payload's `MinWait` and `MaxWait` unchanged and the output
plugin's type as its plugin name. -/
theorem boardInfo_out_passthrough {T D L : Type} (p : Pipeline T D L)
    (inputInfo : InputPluginInfo) (actionInfos : List ActionPluginStaticInfo)
    (outputInfo : OutputPluginInfo) :
    (p.boardInfo inputInfo actionInfos outputInfo).1.Out.BatcherMinWait =
        p.output.BatcherInformation.MinWait ∧
    (p.boardInfo inputInfo actionInfos outputInfo).1.Out.BatcherMaxWait =
        p.output.BatcherInformation.MaxWait ∧
    (p.boardInfo inputInfo actionInfos outputInfo).1.Out.PluginName = outputInfo.Type' :=
  ⟨rfl, rfl, rfl⟩

/-- C8: building a snapshot is read-only with respect to the counter store: after
`boardInfo` the list of registered metrics is the same, so every per-status
counter map has the same keys as before (the lookup of a never-incremented status
inserts nothing), every counter holds the value it held, and the cells that
existed are all still there, unchanged. -/
theorem boardInfo_store_read_only {T D L : Type} (p : Pipeline T D L)
    (inputInfo : InputPluginInfo) (actionInfos : List ActionPluginStaticInfo)
    (outputInfo : OutputPluginInfo) :
    (p.boardInfo inputInfo actionInfos outputInfo).2.store.metrics = p.store.metrics ∧
    (p.boardInfo inputInfo actionInfos outputInfo).2.store.metrics.map
        (fun m => m.current.totalCounter.map Prod.fst) =
      p.store.metrics.map (fun m => m.current.totalCounter.map Prod.fst) ∧
    (∀ c : Nat, (p.boardInfo inputInfo actionInfos outputInfo).2.store.load c =
      p.store.load c) ∧
    p.store.cells <+: (p.boardInfo inputInfo actionInfos outputInfo).2.store.cells := by
  obtain ⟨j, hj⟩ := boardInfo_store p inputInfo actionInfos outputInfo
  rw [hj]
  exact ⟨rfl, rfl, fun c => Store.load_grow p.store j c, ⟨List.replicate j 0, rfl⟩⟩

/-- C9: in the JSON handler, started on a response with an empty body: when the
encoder fails with error `e` and returns no bytes, the body is exactly
"can't get json info: " followed by `e`; when it succeeds with bytes `b`, the body
is exactly `b`; in both cases the status code is the one the response had, the
handler sets none. -/
theorem serveBoardInfoJSON_body {T D L : Type}
    (jsonMarshal : pluginsObservabilityInfo T L → String × Option String)
    (p : Pipeline T D L) (inputInfo : InputPluginInfo)
    (actionInfos : List ActionPluginStaticInfo) (outputInfo : OutputPluginInfo)
    (w : ResponseWriter) (hw : w.body = "") :
    (∀ e : String,
      jsonMarshal (p.boardInfo inputInfo actionInfos outputInfo).1 = ("", some e) →
      (p.serveBoardInfoJSON jsonMarshal inputInfo actionInfos outputInfo w).1.body =
        "can't get json info: " ++ e) ∧
    (∀ b : String,
      jsonMarshal (p.boardInfo inputInfo actionInfos outputInfo).1 = (b, none) →
      (p.serveBoardInfoJSON jsonMarshal inputInfo actionInfos outputInfo w).1.body = b) ∧
    (p.serveBoardInfoJSON jsonMarshal inputInfo actionInfos outputInfo w).1.statusCode =
      w.statusCode := by
  refine ⟨?_, ?_, ?_⟩
  · intro e he
    simp [Pipeline.serveBoardInfoJSON, he, ResponseWriter.Write, ResponseWriter.headerAdd, hw]
  · intro b hb
    simp [Pipeline.serveBoardInfoJSON, hb, ResponseWriter.Write, ResponseWriter.headerAdd, hw]
  · cases h : (jsonMarshal (p.boardInfo inputInfo actionInfos outputInfo).1).2 <;>
      simp [Pipeline.serveBoardInfoJSON, h, ResponseWriter.Write, ResponseWriter.headerAdd]

/-- C9 (witness): an encoder that fails with "unsupported value" and one that
returns the bytes of an empty JSON object, on a fresh response. -/
theorem serveBoardInfoJSON_body_witness :
    (({ header := [], statusCode := none, body := "" } : ResponseWriter).body = "") ∧
    (((examplePipeline geoipStore none []).serveBoardInfoJSON
        (fun _ => ("", some "unsupported value")) { Type' := "in" } [] { Type' := "out" }
        { header := [], statusCode := none, body := "" }).1.body =
      "can't get json info: " ++ "unsupported value") ∧
    (((examplePipeline geoipStore none []).serveBoardInfoJSON
        (fun _ => ("\x7b\x7d", none)) { Type' := "in" } [] { Type' := "out" }
        { header := [], statusCode := none, body := "" }).1.body = "\x7b\x7d") ∧
    (((examplePipeline geoipStore none []).serveBoardInfoJSON
        (fun _ => ("", some "unsupported value")) { Type' := "in" } [] { Type' := "out" }
        { header := [], statusCode := none, body := "" }).1.statusCode = none) :=
  ⟨rfl,
   (serveBoardInfoJSON_body (fun _ => ("", some "unsupported value"))
      (examplePipeline geoipStore none []) { Type' := "in" } [] { Type' := "out" }
      { header := [], statusCode := none, body := "" } rfl).1 "unsupported value" rfl,
   (serveBoardInfoJSON_body (fun _ => ("\x7b\x7d", none))
      (examplePipeline geoipStore none []) { Type' := "in" } [] { Type' := "out" }
      { header := [], statusCode := none, body := "" } rfl).2.1 "\x7b\x7d" rfl,
   (serveBoardInfoJSON_body (fun _ => ("", some "unsupported value"))
      (examplePipeline geoipStore none []) { Type' := "in" } [] { Type' := "out" }
      { header := [], statusCode := none, body := "" } rfl).2.2⟩

theorem nextRepeated_same (v : Int) (n : Nat) :
    ∀ d : DeltaWrapper, d.lastAbsolute = v →
      (nextRepeated v n d).1 = List.replicate n 0 := by
  induction n with
  | zero => intro d _; rfl
  | succ k ih =>
    intro d hd
    simp only [nextRepeated, List.replicate_succ]
    rw [ih (d.next v).2 rfl]
    simp [DeltaWrapper.next, hd]

/-- C10: on a delta tracker as `newDeltaWrapper` creates it, for every value `v`,
the first `next(v)` returns `v` and each of the `n` consecutive calls `next(v)`
that follow returns 0. -/
theorem deltaWrapper_next_repeated (v : Int) (n : Nat) :
    (newDeltaWrapper.next v).1 = v ∧
    (nextRepeated v (n + 1) newDeltaWrapper).1 = v :: List.replicate n 0 := by
  refine ⟨by simp [DeltaWrapper.next, newDeltaWrapper], ?_⟩
  simp only [nextRepeated]
  rw [nextRepeated_same v n (newDeltaWrapper.next v).2 rfl]
  simp [DeltaWrapper.next, newDeltaWrapper]

/-! ## Lemmas on the entries of a report -/

/-- Every entry of a report of a snapshot is the entry of one of the six statuses
for a registered metric that carries the report's metric name. -/
theorem boardInfo_entry_origin {T D L : Type} (p : Pipeline T D L)
    (inputInfo : InputPluginInfo) (actionInfos : List ActionPluginStaticInfo)
    (outputInfo : OutputPluginInfo) (a : actionObservabilityInfo) (e : actionEventStatus)
    (ha : a ∈ (p.boardInfo inputInfo actionInfos outputInfo).1.ActionPlugins)
    (he : e ∈ a.Statuses) :
    ∃ m ∈ p.store.metrics, m.name = a.MetricName ∧
      ∃ st ∈ trackedStatuses, e = statusEntry p.store m st := by
  rw [boardInfo_actionPlugins, List.mem_map] at ha
  obtain ⟨info, _, rfl⟩ := ha
  by_cases hname : info.MetricName = ""
  · simp [actionReport, hname] at he
  · simp only [actionReport, hname, if_false, List.mem_flatMap, metricsNamed, List.mem_filter,
      decide_eq_true_eq, metricBlock, List.mem_map] at he
    obtain ⟨m, ⟨hm, hmn⟩, st, hst, rfl⟩ := he
    refine ⟨m, hm, ?_, st, hst, rfl⟩
    simp [actionReport, hname, hmn]

theorem metricBlock_length (s : Store) (m : metrics) : (metricBlock s m).length = 6 := by
  simp [metricBlock, trackedStatuses]

theorem flatMap_metricBlock_length (s : Store) (l : List metrics) :
    (l.flatMap (metricBlock s)).length = 6 * l.length := by
  induction l with
  | nil => rfl
  | cons x xs ih =>
    rw [List.flatMap_cons, List.length_append, ih, metricBlock_length, List.length_cons]
    omega

theorem toInt64_of_ge (v : Nat) (hlo : 2 ^ 63 ≤ v) (hhi : v < 2 ^ 64) :
    toInt64 v = (v : Int) - 2 ^ 64 := by
  have h64 : v % 2 ^ 64 = v := Nat.mod_eq_of_lt hhi
  unfold toInt64
  rw [h64, if_neg (Nat.not_lt.mpr hlo)]

/-! ## The claims, continued -/

/-- C11: in every snapshot `boardInfo` builds, every status entry of every action
report has one of the six names received, discarded, passed, not_matched,
collapse, hold, and its color is the one the static table binds to that name,
whatever its count, its position and its metric. -/
theorem boardInfo_color_by_name {T D L : Type} (p : Pipeline T D L)
    (inputInfo : InputPluginInfo) (actionInfos : List ActionPluginStaticInfo)
    (outputInfo : OutputPluginInfo) (a : actionObservabilityInfo) (e : actionEventStatus)
    (ha : a ∈ (p.boardInfo inputInfo actionInfos outputInfo).1.ActionPlugins)
    (he : e ∈ a.Statuses) :
    e.Name ∈ ["received", "discarded", "passed", "not_matched", "collapse", "hold"] ∧
    [("received", "#0d8bf0"), ("discarded", "red"), ("passed", "green"),
     ("not_matched", "#8bc34a"), ("collapse", "#009688"), ("hold", "#f050f0")].lookup e.Name =
      some e.Color := by
  obtain ⟨m, _, _, st, hst, rfl⟩ :=
    boardInfo_entry_origin p inputInfo actionInfos outputInfo a e ha he
  simp only [trackedStatuses, List.mem_cons, List.mem_singleton, List.not_mem_nil,
    or_false] at hst
  rcases hst with h | h | h | h | h | h <;> subst h <;> simp only [statusEntry] <;>
    exact ⟨by decide, by decide⟩

/-- C11 (witness): the entry for passed, with count 8, in the report of the spec's
scenario. -/
theorem boardInfo_color_by_name_witness :
    (({ PluginName := "geoip", MetricName := "geoip", Tracked := true
        Statuses :=
          [{ Name := "received", Count := 10, Color := "#0d8bf0" },
           { Name := "discarded", Count := 2, Color := "red" },
           { Name := "passed", Count := 8, Color := "green" },
           { Name := "not_matched", Count := 0, Color := "#8bc34a" },
           { Name := "collapse", Count := 0, Color := "#009688" },
           { Name := "hold", Count := 0, Color := "#f050f0" }] } : actionObservabilityInfo) ∈
      ((examplePipeline geoipStore none []).boardInfo { Type' := "in" }
        [{ Type' := "geoip", MetricName := "geoip" }] { Type' := "out" }).1.ActionPlugins) ∧
    (({ Name := "passed", Count := 8, Color := "green" } : actionEventStatus) ∈
      [({ Name := "received", Count := 10, Color := "#0d8bf0" } : actionEventStatus),
       { Name := "discarded", Count := 2, Color := "red" },
       { Name := "passed", Count := 8, Color := "green" },
       { Name := "not_matched", Count := 0, Color := "#8bc34a" },
       { Name := "collapse", Count := 0, Color := "#009688" },
       { Name := "hold", Count := 0, Color := "#f050f0" }]) ∧
    ("passed" ∈ ["received", "discarded", "passed", "not_matched", "collapse", "hold"] ∧
     [("received", "#0d8bf0"), ("discarded", "red"), ("passed", "green"),
      ("not_matched", "#8bc34a"), ("collapse", "#009688"), ("hold", "#f050f0")].lookup "passed" =
       some "green") :=
  ⟨by decide, by decide,
    boardInfo_color_by_name (examplePipeline geoipStore none []) { Type' := "in" }
      [{ Type' := "geoip", MetricName := "geoip" }] { Type' := "out" }
      { PluginName := "geoip", MetricName := "geoip", Tracked := true
        Statuses :=
          [{ Name := "received", Count := 10, Color := "#0d8bf0" },
           { Name := "discarded", Count := 2, Color := "red" },
           { Name := "passed", Count := 8, Color := "green" },
           { Name := "not_matched", Count := 0, Color := "#8bc34a" },
           { Name := "collapse", Count := 0, Color := "#009688" },
           { Name := "hold", Count := 0, Color := "#f050f0" }] }
      { Name := "passed", Count := 8, Color := "green" } (by decide) (by decide)⟩

/-- C12: for an action plugin with a non-empty declared metric name, the report is
tracked and its status list is the concatenation, in metric-holder order, of one
block per registered metric whose name is the declared name; every block has six
entries, so the list has six entries per such metric. -/
theorem boardInfo_statuses_blocks {T D L : Type} (p : Pipeline T D L)
    (inputInfo : InputPluginInfo) (actionInfos : List ActionPluginStaticInfo)
    (outputInfo : OutputPluginInfo) (i : Nat) (info : ActionPluginStaticInfo)
    (hi : actionInfos[i]? = some info) (hname : info.MetricName ≠ "") :
    ∃ a, (p.boardInfo inputInfo actionInfos outputInfo).1.ActionPlugins[i]? = some a ∧
      a.Tracked = true ∧
      a.Statuses =
        (p.store.metrics.filter (fun m => decide (m.name = info.MetricName))).flatMap
          (metricBlock p.store) ∧
      (∀ m, (metricBlock p.store m).length = 6) ∧
      a.Statuses.length =
        6 * (p.store.metrics.filter (fun m => decide (m.name = info.MetricName))).length := by
  refine ⟨actionReport p.store info,
    boardInfo_report_at p inputInfo actionInfos outputInfo i info hi, ?_, ?_,
    metricBlock_length p.store, ?_⟩
  · simp [actionReport, hname]
  · simp [actionReport, hname, metricsNamed]
  · simp only [actionReport, hname, if_false, metricsNamed]
    exact flatMap_metricBlock_length p.store _

/-- C12 (witness): over a store in which "geoip" is registered twice, the plugin
that declares "geoip" gets twelve entries and the plugin that declares the
unregistered name "mask" gets a tracked report with none. -/
theorem boardInfo_statuses_blocks_witness :
    ([({ Type' := "geoip", MetricName := "geoip" } : ActionPluginStaticInfo),
      { Type' := "mask", MetricName := "mask" }][0]? =
        some { Type' := "geoip", MetricName := "geoip" }) ∧
    ("geoip" ≠ "") ∧
    (∃ a, ((examplePipeline twiceStore none []).boardInfo { Type' := "in" }
        [{ Type' := "geoip", MetricName := "geoip" }, { Type' := "mask", MetricName := "mask" }]
        { Type' := "out" }).1.ActionPlugins[0]? = some a ∧
      a.Tracked = true ∧
      a.Statuses =
        (twiceStore.metrics.filter (fun m => decide (m.name = "geoip"))).flatMap
          (metricBlock twiceStore) ∧
      (∀ m, (metricBlock twiceStore m).length = 6) ∧
      a.Statuses.length =
        6 * (twiceStore.metrics.filter (fun m => decide (m.name = "geoip"))).length) ∧
    (((examplePipeline twiceStore none []).boardInfo { Type' := "in" }
        [{ Type' := "geoip", MetricName := "geoip" }, { Type' := "mask", MetricName := "mask" }]
        { Type' := "out" }).1.ActionPlugins.map
      (fun a => (a.Tracked, a.Statuses.length)) = [(true, 12), (true, 0)]) :=
  ⟨rfl, by decide,
    boardInfo_statuses_blocks (examplePipeline twiceStore none []) { Type' := "in" }
      [{ Type' := "geoip", MetricName := "geoip" }, { Type' := "mask", MetricName := "mask" }]
      { Type' := "out" } 0 { Type' := "geoip", MetricName := "geoip" } rfl (by decide),
    by decide⟩

theorem Store.load_lt (s : Store) (hcells : ∀ v ∈ s.cells, v < 2 ^ 64) (c : Nat) :
    s.load c < 2 ^ 64 := by
  unfold Store.load
  rw [List.getD_eq_getElem?_getD]
  cases h : s.cells[c]? with
  | none => simp
  | some v => exact hcells v (List.getElem?_mem h)

/-- C13: the reported count is the unsigned 64-bit counter value read as a signed
64-bit integer. Every entry of every report comes from a registered metric of the
report's name; with `v` the value of that metric's counter for the entry's name
(0 when the map has no entry), the count is `v` and non-negative when `v < 2^63`,
and `v - 2^64` and negative when `v ≥ 2^63`. -/
theorem boardInfo_count_reinterpreted {T D L : Type} (p : Pipeline T D L)
    (inputInfo : InputPluginInfo) (actionInfos : List ActionPluginStaticInfo)
    (outputInfo : OutputPluginInfo) (a : actionObservabilityInfo) (e : actionEventStatus)
    (hcells : ∀ v ∈ p.store.cells, v < 2 ^ 64)
    (ha : a ∈ (p.boardInfo inputInfo actionInfos outputInfo).1.ActionPlugins)
    (he : e ∈ a.Statuses) :
    ∃ m ∈ p.store.metrics, m.name = a.MetricName ∧
      ∃ v : Nat,
        v = (match m.current.totalCounter.lookup e.Name with
              | some c => p.store.load c
              | none => 0) ∧
        (v < 2 ^ 63 → e.Count = (v : Int) ∧ 0 ≤ e.Count) ∧
        (2 ^ 63 ≤ v → e.Count = (v : Int) - 2 ^ 64 ∧ e.Count < 0) := by
  obtain ⟨m, hm, hmn, st, _, rfl⟩ :=
    boardInfo_entry_origin p inputInfo actionInfos outputInfo a e ha he
  refine ⟨m, hm, hmn, counterValue p.store m st, rfl, ?_, ?_⟩
  · intro hlt
    simp only [statusEntry]
    rw [toInt64_of_lt _ hlt]
    exact ⟨rfl, Int.ofNat_nonneg _⟩
  · intro hge
    have hhi : counterValue p.store m st < 2 ^ 64 := by
      unfold counterValue
      cases m.current.totalCounter.lookup st with
      | none => simp
      | some c => exact Store.load_lt p.store hcells c
    simp only [statusEntry]
    rw [toInt64_of_ge _ hge hhi]
    refine ⟨rfl, ?_⟩
    have : ((counterValue p.store m st : Nat) : Int) < 2 ^ 64 := by exact_mod_cast hhi
    omega

/-- C13 (witness): the received counter holds 2^64 - 1 and is reported as -1. -/
theorem boardInfo_count_reinterpreted_witness :
    (∀ v ∈ wrappedStore.cells, v < 2 ^ 64) ∧
    (({ PluginName := "geoip", MetricName := "geoip", Tracked := true
        Statuses :=
          [{ Name := "received", Count := -1, Color := "#0d8bf0" },
           { Name := "discarded", Count := 0, Color := "red" },
           { Name := "passed", Count := -9223372036854775808, Color := "green" },
           { Name := "not_matched", Count := 0, Color := "#8bc34a" },
           { Name := "collapse", Count := 0, Color := "#009688" },
           { Name := "hold", Count := 7, Color := "#f050f0" }] } : actionObservabilityInfo) ∈
      ((examplePipeline wrappedStore none []).boardInfo { Type' := "in" }
        [{ Type' := "geoip", MetricName := "geoip" }] { Type' := "out" }).1.ActionPlugins) ∧
    (({ Name := "received", Count := -1, Color := "#0d8bf0" } : actionEventStatus) ∈
      [({ Name := "received", Count := -1, Color := "#0d8bf0" } : actionEventStatus),
       { Name := "discarded", Count := 0, Color := "red" },
       { Name := "passed", Count := -9223372036854775808, Color := "green" },
       { Name := "not_matched", Count := 0, Color := "#8bc34a" },
       { Name := "collapse", Count := 0, Color := "#009688" },
       { Name := "hold", Count := 7, Color := "#f050f0" }]) ∧
    (∃ m ∈ wrappedStore.metrics, m.name = "geoip" ∧
      ∃ v : Nat,
        v = (match m.current.totalCounter.lookup "received" with
              | some c => wrappedStore.load c
              | none => 0) ∧
        (v < 2 ^ 63 → (-1 : Int) = (v : Int) ∧ 0 ≤ (-1 : Int)) ∧
        (2 ^ 63 ≤ v → (-1 : Int) = (v : Int) - 2 ^ 64 ∧ (-1 : Int) < 0)) :=
  ⟨by decide, by decide, by decide,
    boardInfo_count_reinterpreted (examplePipeline wrappedStore none []) { Type' := "in" }
      [{ Type' := "geoip", MetricName := "geoip" }] { Type' := "out" }
      { PluginName := "geoip", MetricName := "geoip", Tracked := true
        Statuses :=
          [{ Name := "received", Count := -1, Color := "#0d8bf0" },
           { Name := "discarded", Count := 0, Color := "red" },
           { Name := "passed", Count := -9223372036854775808, Color := "green" },
           { Name := "not_matched", Count := 0, Color := "#8bc34a" },
           { Name := "collapse", Count := 0, Color := "#009688" },
           { Name := "hold", Count := 7, Color := "#f050f0" }] }
      { Name := "received", Count := -1, Color := "#0d8bf0" }
      (by decide) (by decide) (by decide)⟩

/-- C14: the helper registered under the name "title" shifts a zero-based index to
one-based: for every `a` with `0 ≤ a < 2^63 - 1` it returns `a + 1`, which is at
least 1. -/
theorem funcMap_title (a : Int) (h0 : 0 ≤ a) (h1 : a < 2 ^ 63 - 1) :
    ∃ f, funcMap.lookup "title" = some f ∧ f a = a + 1 ∧ 1 ≤ f a := by
  have hw : wrapInt64 (a + 1) = a + 1 := by
    unfold wrapInt64
    rw [Int.emod_eq_of_lt (by omega) (by omega)]
    omega
  refine ⟨fun a => wrapInt64 (a + 1), rfl, hw, ?_⟩
  show 1 ≤ wrapInt64 (a + 1)
  rw [hw]
  omega

/-- C14 (witness): the first index, 0, is shown as 1. -/
theorem funcMap_title_witness :
    ((0 : Int) ≤ 0) ∧ ((0 : Int) < 2 ^ 63 - 1) ∧
    (∃ f, funcMap.lookup "title" = some f ∧ f 0 = 0 + 1 ∧ 1 ≤ f 0) :=
  ⟨by decide, by decide, funcMap_title 0 (by decide) (by decide)⟩

end pipeline
